import Mathlib

/-!
Verification of the Choices-MCP component-generation client.

The development shallowly embeds the parts of the source that the spec talks
about: the polling selection waiter (`waitForComponentSelection` in
`src/index.ts` and `waitForSelection` in the variant file), the push/event
waiter (`waitForSupabaseSelection` in `src/server.ts`), the request schema
(`GenerateComponentSchema`), startup and call-time credential handling, the
generate-component handler of `src/server.ts`, and the result formatter of
`src/index.ts`.  Machine time (the 5000 ms sleep between polls, the 1 h push
timer) is modelled by the order of observable events, not by wall-clock time.
-/

namespace ChoicesMCP

/-! ## Data model (session status payload returned by the status endpoint) -/

/-- One generated variation, as returned by the
`/api/mcp/component-gallery/:sessionId` endpoint (`variations` array items in
`src/index.ts` and the variant file). -/
structure Variation where
  id : String
  variationIndex : Int
  code : String
  status : String
deriving Repr, DecidableEq

/-- The `session` object of the status payload: a status string and an
optional selected-variation id (absent or `none` while nothing is chosen). -/
structure SessionInfo where
  status : String
  selectedVariationId : Option String
deriving Repr, DecidableEq

/-- The full payload of one status poll. -/
structure SessionStatus where
  session : SessionInfo
  variations : List Variation
deriving Repr, DecidableEq

/-- What one poll of the status endpoint yields: a payload, or a thrown
transport error (`makeApiCall` / `apiCall` throw on `!response.ok` and on
network failure); the string is the error message. -/
inductive PollResult where
  | ok : SessionStatus → PollResult
  | err : String → PollResult
deriving Repr, DecidableEq

/-- The value the polling waiter resolves with: the selected variation code
and its index (`return { code, variationIndex }`). -/
structure SelectionResult where
  code : String
  variationIndex : Int
deriving Repr, DecidableEq

/-- Outcome of a whole polling run.  Each constructor carries the number of
polls already performed when the run ended (the loop counter `attempt` at
that point), which lets the theorems talk about when the waiter stopped:
`selected r k` means the waiter returned on poll `k` (0-based),
`pollFailure e k` means the escalated poll error was thrown on poll `k`, and
`timeout k` means the loop exhausted its budget after `k` polls. -/
inductive WaitOutcome where
  | selected : SelectionResult → Nat → WaitOutcome
  | pollFailure : String → Nat → WaitOutcome
  | timeout : Nat → WaitOutcome
deriving Repr, DecidableEq

/-! ## Polling waiter (`waitForComponentSelection` / `waitForSelection`) -/

/-- `const maxAttempts = 60; // 5 minutes (5 second intervals)` -/
def maxAttempts : Nat := 60

/-- `const pollInterval = 5000; // 5 seconds` (milliseconds). -/
def pollInterval : Nat := 5000

/-- The grace bound of the catch clause: `if (attempt > 5) throw ...` — a
poll error is tolerated while `attempt <= 5` and escalates otherwise. -/
def graceLimit : Nat := 5

/-- The selection test performed on each successful poll, factoring the body
of the loop in `waitForComponentSelection`: the session status must be the
string `"completed"`, `selectedVariationId` must be present and truthy
(non-empty), the referenced variation must be found in `variations` by id,
and its `code` must be truthy (non-empty); only then does the waiter return
`{ code, variationIndex }` of that variation. -/
def selectionOf (s : SessionStatus) : Option SelectionResult :=
  if s.session.status = "completed" then
    match s.session.selectedVariationId with
    | some selId =>
      if selId = "" then none
      else
        match s.variations.find? (fun v => v.id == selId) with
        | some v =>
          if v.code = "" then none
          else some ⟨v.code, v.variationIndex⟩
        | none => none
    | none => none
  else none

/-- The polling loop of `waitForComponentSelection`, parametrised by the
scripted responses `poll` of the status endpoint (poll `n` is the response to
the `n`-th request).  `fuel` is the number of loop iterations left and
`attempt` the current value of the loop counter; the run starts at
`fuel = maxAttempts`, `attempt = 0`.  A successful poll whose payload passes
`selectionOf` resolves immediately; a failing poll throws the escalated error
when `attempt > graceLimit` and is otherwise swallowed; exhausting the budget
throws the timeout error. -/
def waitFrom (poll : Nat → PollResult) : Nat → Nat → WaitOutcome
  | 0, attempt => .timeout attempt
  | fuel + 1, attempt =>
    match poll attempt with
    | .ok s =>
      match selectionOf s with
      | some r => .selected r attempt
      | none => waitFrom poll fuel (attempt + 1)
    | .err e =>
      if attempt > graceLimit then .pollFailure e attempt
      else waitFrom poll fuel (attempt + 1)

/-- The polling waiter: run the loop for `maxAttempts` iterations starting at
attempt 0. -/
def waitForComponentSelection (poll : Nat → PollResult) : WaitOutcome :=
  waitFrom poll maxAttempts 0

/-- A poll position at which the loop takes its skip branch: the request
succeeds but the payload does not pass the selection test. -/
def skipsAt (poll : Nat → PollResult) (attempt : Nat) : Prop :=
  ∃ s, poll attempt = .ok s ∧ selectionOf s = none

/-! ## Push waiter (`waitForSupabaseSelection` in `src/server.ts`) -/

/-- The mutable state of one `waitForSupabaseSelection` promise: the single
`let settled = false` flag. -/
structure PushState where
  settled : Bool
deriving Repr, DecidableEq

/-- The two resolution sources racing inside `waitForSupabaseSelection`: a
`component_selected` broadcast event with its payload, and the 1-hour
`setTimeout` timer firing. -/
inductive PushEvent where
  | componentSelected : String → PushEvent
  | timerFired : PushEvent
deriving Repr, DecidableEq

/-- The externally observable effects the waiter can perform: settling the
promise (resolve with the payload, or reject with the timeout error) and
unsubscribing the channel. -/
inductive PushAction where
  | resolve : String → PushAction
  | reject : PushAction
  | unsubscribe : PushAction
deriving Repr, DecidableEq

/-- One event-loop callback of `waitForSupabaseSelection`.  The broadcast
handler is `if (settled) return; settled = true; resolve(payload);
channel.unsubscribe();`; the timer callback is `if (!settled) { settled =
true; channel.unsubscribe(); reject(...) }`.  The returned action list is in
program order. -/
def waitForSupabaseSelectionStep :
    PushState → PushEvent → PushState × List PushAction
  | st, .componentSelected p =>
    if st.settled then (st, [])
    else (⟨true⟩, [.resolve p, .unsubscribe])
  | st, .timerFired =>
    if st.settled then (st, [])
    else (⟨true⟩, [.unsubscribe, .reject])

/-- Run the push waiter over a sequence of delivered events, accumulating the
actions it performs. -/
def pushRun : PushState → List PushEvent → PushState × List PushAction
  | st, [] => (st, [])
  | st, e :: rest =>
    let step := waitForSupabaseSelectionStep st e
    let tail := pushRun step.1 rest
    (tail.1, step.2 ++ tail.2)

/-- Actions that settle the promise (resolve or reject), as opposed to the
channel unsubscription. -/
def settlesPromise : PushAction → Bool
  | .resolve _ => true
  | .reject => true
  | .unsubscribe => false

/-! ## Request schema and dispatcher forwarding -/

/-- The framework enumeration of `GenerateComponentSchema`:
`z.enum(['react', 'vue', 'angular'])`. -/
def frameworkValues : List String := ["react", "vue", "angular"]

/-- The styling enumeration of `GenerateComponentSchema`:
`z.enum(['tailwind', 'css', 'styled-components'])`. -/
def stylingValues : List String := ["tailwind", "css", "styled-components"]

/-- Validated framework values. -/
inductive Framework where
  | react | vue | angular
deriving Repr, DecidableEq

/-- Validated styling values. -/
inductive Styling where
  | tailwind | css | styledComponents
deriving Repr, DecidableEq

/-- The wire string of a validated framework. -/
def frameworkToString : Framework → String
  | .react => "react"
  | .vue => "vue"
  | .angular => "angular"

/-- The wire string of a validated styling. -/
def stylingToString : Styling → String
  | .tailwind => "tailwind"
  | .css => "css"
  | .styledComponents => "styled-components"

/-- The raw tool-call arguments as they arrive over MCP: every field may be
absent. -/
structure RawArgs where
  description : Option String
  framework : Option String
  styling : Option String
deriving Repr, DecidableEq

/-- The output of a successful `GenerateComponentSchema.parse`. -/
structure ParsedRequest where
  description : String
  framework : Framework
  styling : Styling
deriving Repr, DecidableEq

/-- `z.enum(['react', 'vue', 'angular']).optional().default('react')`:
absent defaults to react, a listed value parses, anything else is a Zod
issue. -/
def parseFramework (x : Option String) : Except String Framework :=
  match x with
  | none => .ok .react
  | some s =>
    if s = "react" then .ok .react
    else if s = "vue" then .ok .vue
    else if s = "angular" then .ok .angular
    else .error ("Invalid enum value for framework: " ++ s)

/-- `z.enum(['tailwind', 'css', 'styled-components']).optional().default('tailwind')`. -/
def parseStyling (x : Option String) : Except String Styling :=
  match x with
  | none => .ok .tailwind
  | some s =>
    if s = "tailwind" then .ok .tailwind
    else if s = "css" then .ok .css
    else if s = "styled-components" then .ok .styledComponents
    else .error ("Invalid enum value for styling: " ++ s)

/-- `GenerateComponentSchema.parse` of `src/server.ts`: `description` is a
required string, framework and styling are optional enumerations with
defaults; any violation throws a ZodError (modelled as `.error`). -/
def GenerateComponentSchemaParse (args : RawArgs) : Except String ParsedRequest :=
  match args.description with
  | none => .error "Required: description"
  | some d =>
    match parseFramework args.framework with
    | .error e => .error e
    | .ok f =>
      match parseStyling args.styling with
      | .error e => .error e
      | .ok st => .ok ⟨d, f, st⟩

/-- The framework string forwarded by `handleGenerateComponent` in
`src/index.ts`: the handler destructures `framework = "react"` out of the
unvalidated arguments (`args as any`) and puts that value verbatim in the
body of the POST to `/api/mcp/component-gallery` — no runtime check against
the enumeration happens on this path. -/
def indexForwardedFramework (args : RawArgs) : String :=
  args.framework.getD "react"

/-- The styling string forwarded by `handleGenerateComponent` in
`src/index.ts`, likewise unvalidated. -/
def indexForwardedStyling (args : RawArgs) : String :=
  args.styling.getD "tailwind"

/-! ## Startup and call-time credential handling -/

/-- What the top-level module code of `src/index.ts` does before constructing
the server. -/
inductive StartupResult where
  | exit : Nat → StartupResult
  | running : StartupResult
deriving Repr, DecidableEq

/-- The startup check of `src/index.ts` lines 13–18:
`if (!ADORABLE_API_KEY) { console.error(...); process.exit(1); }` — an absent
or empty (falsy) credential terminates the process with code 1 before any
server object exists. -/
def adorableStartup (apiKeyEnv : Option String) : StartupResult :=
  match apiKeyEnv with
  | none => .exit 1
  | some k => if k = "" then .exit 1 else .running

/-- The result of `AdorableApiClient.validateApiKey`. -/
structure ApiKeyValidationResult where
  valid : Bool
  userId : Option String
  error : Option String
deriving Repr, DecidableEq

/-- Errors the tool-call handler of `src/server.ts` can raise while
authenticating. -/
inductive ToolCallError where
  | authenticationError : String → ToolCallError
deriving Repr, DecidableEq

/-- `extractApiKey` of `src/server.ts`: read `ADORABLE_API_KEY` from the
environment and throw an `AuthenticationError` when it is absent (or falsy). -/
def extractApiKey (env : Option String) : Except ToolCallError String :=
  match env with
  | none => .error (.authenticationError
      "No API key provided. Set ADORABLE_API_KEY environment variable.")
  | some k =>
    if k = "" then
      .error (.authenticationError
        "No API key provided. Set ADORABLE_API_KEY environment variable.")
    else .ok k

/-- The authentication prologue of the tool-call handler in `src/server.ts`:
extract the key, validate it, and throw
`AuthenticationError(authResult.error || 'Invalid API key')` when validation
fails; on success the handler continues with `authResult.userId!` (the
non-null assertion is modelled by defaulting a missing id to the empty
string). -/
def authenticateToolCall (env : Option String)
    (validateApiKey : String → ApiKeyValidationResult) :
    Except ToolCallError String :=
  match extractApiKey env with
  | .error e => .error e
  | .ok key =>
    let res := validateApiKey key
    if res.valid then .ok (res.userId.getD "")
    else .error (.authenticationError (res.error.getD "Invalid API key"))

/-! ## Generate-component handler of `src/server.ts` (browser launch, response) -/

/-- Outcome of the best-effort browser launch (`execAsync(openCommand)` in a
try/catch). -/
inductive LaunchResult where
  | launched
  | failed : String → LaunchResult
deriving Repr, DecidableEq

/-- Outcome of awaiting `waitForSupabaseSelection` inside the handler: a
selection payload, or the error of the rejected promise. -/
inductive SelectionWait where
  | selected : String → SelectionWait
  | waitError : String → SelectionWait
deriving Repr, DecidableEq

/-- The content item `handleGenerateComponent` of `src/server.ts` returns: on
success the stringified object `{ message: 'Component selected', sessionId,
galleryUrl, ...selection }` (kept structured here), and on wait failure the
fallback text that embeds the gallery URL. -/
inductive GenerateContent where
  | selectedPayload : (message sessionId galleryUrl selection : String) → GenerateContent
  | noSelectionText : String → GenerateContent
deriving Repr, DecidableEq

/-- `handleGenerateComponent` of `src/server.ts` lines 171–230, after the
session has been created: build the gallery URL, attempt the browser launch
(its failure is caught, logged with `console.warn`, and execution continues),
then await the selection and build the response; the wait-failure branch
returns the text `Component generation started but no selection was
received: <msg>. You can open the gallery at <galleryUrl>`.  The second
component collects the log lines of the launch attempt. -/
def handleGenerateComponentServer (baseUrl sessionId : String)
    (launch : LaunchResult) (wait : SelectionWait) :
    GenerateContent × List String :=
  let galleryUrl := baseUrl ++ "/gallery/" ++ sessionId
  let launchLogs :=
    match launch with
    | .launched => ["Browser opened successfully: " ++ galleryUrl]
    | .failed m => ["Failed to open browser automatically: " ++ m]
  match wait with
  | .selected payload =>
    (.selectedPayload "Component selected" sessionId galleryUrl payload, launchLogs)
  | .waitError m =>
    (.noSelectionText
      ("Component generation started but no selection was received: " ++ m
        ++ ". You can open the gallery at " ++ galleryUrl), launchLogs)

/-- The response content carries the gallery URL: as the dedicated field of
the success payload, or verbatim inside the fallback text. -/
def contentMentionsGalleryUrl (c : GenerateContent) (g : String) : Prop :=
  match c with
  | .selectedPayload _ _ url _ => url = g
  | .noSelectionText t => ∃ pre suf, t = pre ++ g ++ suf

/-! ## Result formatter (`src/index.ts` and the variant file) -/

/-- The five fixed style names of `src/index.ts`. -/
def styleNames : List String :=
  ["Modern & Minimalist",
   "Bold & Vibrant",
   "Elegant & Professional",
   "Playful & Colorful",
   "Clean & Simple"]

/-- `styleNames[selectedComponent.variationIndex] || Variation (n+1)` of
`src/index.ts`: a JavaScript index outside the array bounds yields
`undefined`, so any `variationIndex` outside `[0, 5)` falls back to the
generated name. -/
def styleNameFor (variationIndex : Int) : String :=
  if 0 ≤ variationIndex ∧ variationIndex < 5 then
    styleNames.getD variationIndex.toNat ""
  else
    "Variation " ++ toString (variationIndex + 1)

/-- The five fixed style names of the variant file (`waitForSelection`
variant). -/
def styleNamesBeautiful : List String :=
  ["Modern SaaS Professional",
   "Neon Signal Flow",
   "Enterprise Minimalist",
   "Creative Studio Vibrant",
   "Pure Functional Design"]

/-- `styleNames[selected.variationIndex] || Design Variation (n+1)` of the
variant file. -/
def styleNameBeautifulFor (variationIndex : Int) : String :=
  if 0 ≤ variationIndex ∧ variationIndex < 5 then
    styleNamesBeautiful.getD variationIndex.toNat ""
  else
    "Design Variation " ++ toString (variationIndex + 1)

/-- The response text built by `handleGenerateComponent` of `src/index.ts`
around the selected code (markdown prose kept verbatim where it brackets the
interpolated values). -/
def formatResult (framework styling : String) (sel : SelectionResult) : String :=
  let styleName := styleNameFor sel.variationIndex
  let lang := if framework = "vue" then "vue" else "tsx"
  "🎉 **Component Selected Successfully!**\n\n**Selected Style:** " ++ styleName
    ++ "\n**Framework:** " ++ framework ++ " with " ++ styling
    ++ "\n\n📋 **Component Code:**\n\n```" ++ lang ++ "\n"
    ++ sel.code
    ++ ("\n```\n\n**Implementation Instructions:**\n"
      ++ "1. Copy the code above into your project\n"
      ++ "2. Install any required dependencies (typically already in your project) \n"
      ++ "3. Import and use the component in your application\n"
      ++ "4. Customize colors, spacing, or content as needed\n\n"
      ++ "*The component is ready to use in your " ++ framework ++ " application!*")

/-! ## Concrete fixtures used by witnesses and counterexamples -/

/-- A pending status payload with no variations yet. -/
def pendingStatus : SessionStatus := ⟨⟨"pending", none⟩, []⟩

/-- A completed status payload whose selected variation carries code. -/
def completedStatus : SessionStatus :=
  ⟨⟨"completed", some "var-3"⟩, [⟨"var-3", 2, "<Button/>", "ready"⟩]⟩

/-- An expired status payload with no selection. -/
def expiredStatus : SessionStatus := ⟨⟨"expired", none⟩, []⟩

/-- Scripted service: pending on the first two polls, completed with a
selection from the third on. -/
def pollPendingPendingCompleted : Nat → PollResult :=
  fun n => if n < 2 then .ok pendingStatus else .ok completedStatus

/-- Scripted service: every poll reports the session expired with no
selection. -/
def pollAlwaysExpired : Nat → PollResult := fun _ => .ok expiredStatus

/-- Scripted service: pending until two transport errors strike on polls 6
and 7 (just past the grace bound), then completed with a selection. -/
def pollErrorsPastGrace : Nat → PollResult :=
  fun n =>
    if n == 6 || n == 7 then .err "ECONNRESET"
    else if n == 8 then .ok completedStatus
    else .ok pendingStatus

/-- Scripted service: two transport errors on polls 1 and 2 (inside the
grace window), then completed with a selection on poll 3. -/
def pollErrorsInGrace : Nat → PollResult :=
  fun n =>
    if n == 1 || n == 2 then .err "ECONNRESET"
    else if n ≥ 3 then .ok completedStatus
    else .ok pendingStatus

/-- Raw arguments carrying an out-of-enumeration framework. -/
def svelteArgs : RawArgs := ⟨some "a pricing card", some "svelte", some "tailwind"⟩

/-- A validator that rejects every key, as the remote service does for a bad
credential. -/
def rejectAllKeys : String → ApiKeyValidationResult :=
  fun _ => ⟨false, none, some "Invalid API key"⟩

/-- The caller-visible response of the `src/index.ts` variant, together with
the console log lines of the browser launch.  `handleGenerateComponent` there
passes the gallery URL only to `console.log` and to `open(galleryUrl)` —
whose rejection is caught and logged (`Failed to open gallery URL
automatically: ...` then `Please manually open: ...`) without affecting the
wait; the content returned to the caller is the formatted template on a
resolved selection, and otherwise the thrown message wrapped by the CallTool
catch handler as `❌ Error: ...` (the escalated poll error is thrown as
`Failed to poll session status: ...`, the exhausted budget as the fixed
5-minute timeout message).  The gallery URL is not interpolated into any of
the three response texts. -/
def handleGenerateComponentIndex (galleryUrl framework styling : String)
    (launch : LaunchResult) (outcome : WaitOutcome) : String × List String :=
  let launchLogs :=
    match launch with
    | .launched => []
    | .failed m =>
      ["Failed to open gallery URL automatically: " ++ m,
       "Please manually open: " ++ galleryUrl]
  match outcome with
  | .selected r _ => (formatResult framework styling r, launchLogs)
  | .pollFailure e _ =>
    ("❌ Error: Failed to poll session status: " ++ e, launchLogs)
  | .timeout _ =>
    ("❌ Error: Timeout: No component was selected within 5 minutes. Please try again.",
     launchLogs)

/-! ## Helper lemmas about the polling loop -/

/-- A poll whose status is anything but `"completed"` never passes the
selection test. -/
theorem selectionOf_not_completed {s : SessionStatus}
    (h : s.session.status ≠ "completed") : selectionOf s = none := by
  simp [selectionOf, h]

/-- A value the selection test accepts always carries non-empty code. -/
theorem selectionOf_code_ne {s : SessionStatus} {r : SelectionResult}
    (h : selectionOf s = some r) : r.code ≠ "" := by
  unfold selectionOf at h
  split at h
  case isTrue =>
    cases hsel : s.session.selectedVariationId with
    | none => simp [hsel] at h
    | some selId =>
      simp only [hsel] at h
      by_cases hid : selId = ""
      · simp [hid] at h
      · simp only [if_neg hid] at h
        cases hfind : s.variations.find? (fun v => v.id == selId) with
        | none => simp [hfind] at h
        | some v =>
          simp only [hfind] at h
          by_cases hc : v.code = ""
          · simp [hc] at h
          · simp only [if_neg hc, Option.some.injEq] at h
            subst h
            exact hc
  case isFalse => exact absurd h (by simp)

/-- Stepping the loop past a successful poll whose payload does not pass the
selection test. -/
theorem waitFrom_skip (poll : Nat → PollResult) (fuel attempt : Nat)
    (s : SessionStatus) (hp : poll attempt = .ok s) (hn : selectionOf s = none) :
    waitFrom poll (fuel + 1) attempt = waitFrom poll fuel (attempt + 1) := by
  simp [waitFrom, hp, hn]

/-- Stepping the loop past a tolerated poll error (still inside the grace
window). -/
theorem waitFrom_err_tolerated (poll : Nat → PollResult) (fuel attempt : Nat)
    (e : String) (hp : poll attempt = .err e) (hg : ¬ attempt > graceLimit) :
    waitFrom poll (fuel + 1) attempt = waitFrom poll fuel (attempt + 1) := by
  simp [waitFrom, hp, hg]

/-- A successful poll whose payload passes the selection test resolves the
waiter at the current attempt. -/
theorem waitFrom_hit (poll : Nat → PollResult) (fuel attempt : Nat)
    (s : SessionStatus) (r : SelectionResult)
    (hp : poll attempt = .ok s) (hr : selectionOf s = some r) :
    waitFrom poll (fuel + 1) attempt = .selected r attempt := by
  simp [waitFrom, hp, hr]

/-- Advancing the loop over a block of polls that all take the skip branch. -/
theorem waitFrom_advance (poll : Nat → PollResult) :
    ∀ (i fuel attempt : Nat),
      (∀ n, n < i → skipsAt poll (attempt + n)) →
      waitFrom poll (fuel + i) attempt = waitFrom poll fuel (attempt + i) := by
  intro i
  induction i with
  | zero => intro fuel attempt _; rfl
  | succ k ih =>
    intro fuel attempt h
    obtain ⟨s, hs, hn⟩ := h 0 (Nat.succ_pos k)
    have hstep : waitFrom poll (fuel + (k + 1)) attempt
        = waitFrom poll (fuel + k) (attempt + 1) := by
      have he : fuel + (k + 1) = (fuel + k) + 1 := by omega
      rw [he]
      exact waitFrom_skip poll (fuel + k) attempt s hs hn
    have htail : ∀ n, n < k → skipsAt poll (attempt + 1 + n) := by
      intro n hn2
      have hmem := h (n + 1) (by omega)
      have he : attempt + (n + 1) = attempt + 1 + n := by omega
      exact he ▸ hmem
    rw [hstep, ih fuel (attempt + 1) htail]
    congr 1
    omega

/-- Any resolution the polling loop produces carries non-empty code. -/
theorem waitFrom_selected_code (poll : Nat → PollResult) :
    ∀ (fuel : Nat) {attempt k : Nat} {r : SelectionResult},
      waitFrom poll fuel attempt = .selected r k → r.code ≠ "" := by
  intro fuel
  induction fuel with
  | zero => intro attempt k r h; simp [waitFrom] at h
  | succ n ih =>
    intro attempt k r h
    rw [waitFrom] at h
    cases hp : poll attempt with
    | ok s =>
      simp only [hp] at h
      cases hsel : selectionOf s with
      | some r0 =>
        simp only [hsel, WaitOutcome.selected.injEq] at h
        exact h.1 ▸ selectionOf_code_ne hsel
      | none => simp only [hsel] at h; exact ih h
    | err e =>
      simp only [hp] at h
      by_cases hg : attempt > graceLimit
      · rw [if_pos hg] at h; exact absurd h (by simp)
      · rw [if_neg hg] at h; exact ih h

/-- A settled push waiter is inert: delivering any further events produces no
state change and no actions. -/
theorem pushRun_settled : ∀ evs : List PushEvent,
    pushRun ⟨true⟩ evs = (⟨true⟩, []) := by
  intro evs
  induction evs with
  | nil => rfl
  | cons e rest ih =>
    cases e <;> simp [pushRun, waitForSupabaseSelectionStep, ih]

/-! ## Claim theorems -/

/-- C1: for every polling run whose observed status sequence is
[pending, pending, completed with a selectedVariationId], the polling waiter
resolves on the 3rd poll (attempt index 2, not later) with the code and
variationIndex of the variation whose id equals selectedVariationId; the
outcome records attempt 2, so none of the remaining attempt budget is
consumed, and nothing past the 3rd poll is even constrained. -/
theorem pollingResolvesOnThirdPoll (poll : Nat → PollResult)
    (s0 s1 s2 : SessionStatus) (selId : String) (v : Variation)
    (h0 : poll 0 = .ok s0) (h0p : s0.session.status = "pending")
    (h1 : poll 1 = .ok s1) (h1p : s1.session.status = "pending")
    (h2 : poll 2 = .ok s2)
    (h2c : s2.session.status = "completed")
    (h2sel : s2.session.selectedVariationId = some selId)
    (h2ne : selId ≠ "")
    (h2find : s2.variations.find? (fun w => w.id == selId) = some v)
    (h2code : v.code ≠ "") :
    waitForComponentSelection poll = .selected ⟨v.code, v.variationIndex⟩ 2 := by
  have hn0 : selectionOf s0 = none := selectionOf_not_completed (by simp [h0p])
  have hn1 : selectionOf s1 = none := selectionOf_not_completed (by simp [h1p])
  have hsel2 : selectionOf s2 = some ⟨v.code, v.variationIndex⟩ := by
    simp [selectionOf, h2c, h2sel, h2ne, h2find, h2code]
  have hadv : waitFrom poll (58 + 2) 0 = waitFrom poll 58 (0 + 2) := by
    apply waitFrom_advance
    intro n hn
    interval_cases n
    · exact ⟨s0, h0, hn0⟩
    · exact ⟨s1, h1, hn1⟩
  have hend : waitFrom poll (57 + 1) 2 = .selected ⟨v.code, v.variationIndex⟩ 2 :=
    waitFrom_hit poll 57 2 s2 ⟨v.code, v.variationIndex⟩ h2 hsel2
  calc waitForComponentSelection poll
      = waitFrom poll (58 + 2) 0 := rfl
    _ = waitFrom poll 58 (0 + 2) := hadv
    _ = waitFrom poll (57 + 1) 2 := rfl
    _ = .selected ⟨v.code, v.variationIndex⟩ 2 := hend

/-- C1 witness: the scripted trace pending, pending, completed resolves on
the third poll with the code of variation var-3. -/
theorem pollingResolvesOnThirdPoll_witness :
    waitForComponentSelection pollPendingPendingCompleted
      = .selected ⟨"<Button/>", 2⟩ 2 :=
  pollingResolvesOnThirdPoll pollPendingPendingCompleted
    pendingStatus pendingStatus completedStatus "var-3"
    ⟨"var-3", 2, "<Button/>", "ready"⟩
    rfl rfl rfl rfl rfl rfl rfl (by decide) (by decide) (by decide)

/-- C3 counterexample: with the service reporting status expired and no
selection on every poll, the polling waiter does not fail fast with a
SessionExpired-typed error on that poll — it keeps polling through the whole
attempt budget and ends with the Timeout error after all 60 polls. -/
theorem expiredSessionNotFailFastCex :
    waitForComponentSelection pollAlwaysExpired = .timeout 60 := by decide

/-- C3 amended: for every polling run in which a poll returns a terminal
session status without a selection (status expired, no selectedVariationId),
the polling waiter does NOT fail fast with a SessionExpired-typed error: the
loop in `waitForComponentSelection` only tests for status completed, so an
expired session is treated like a pending one, and when every poll reports
expired the waiter keeps polling and fails with the Timeout error after the
full 60-attempt budget. -/
theorem expiredSessionOutcomeIsTimeout (poll : Nat → PollResult)
    (h : ∀ n, n < maxAttempts → ∃ s, poll n = .ok s ∧
        s.session.status = "expired" ∧ s.session.selectedVariationId = none) :
    waitForComponentSelection poll = .timeout 60 := by
  have hadv : waitFrom poll (0 + 60) 0 = waitFrom poll 0 (0 + 60) := by
    apply waitFrom_advance
    intro n hn
    obtain ⟨s, hs, hstat, _⟩ := h n (by simpa [maxAttempts] using hn)
    exact ⟨s, by simpa using hs, selectionOf_not_completed (by simp [hstat])⟩
  calc waitForComponentSelection poll
      = waitFrom poll (0 + 60) 0 := rfl
    _ = waitFrom poll 0 (0 + 60) := hadv
    _ = .timeout 60 := rfl

/-- C3 amended witness: applying the amended statement to the all-expired
trace. -/
theorem expiredSessionOutcomeIsTimeout_witness :
    waitForComponentSelection pollAlwaysExpired = .timeout 60 :=
  expiredSessionOutcomeIsTimeout pollAlwaysExpired
    (fun _ _ => ⟨expiredStatus, rfl, rfl, rfl⟩)

/-- C4: for every session that never reaches a terminal state (every poll
succeeds and never passes the selection test), the polling waiter performs
exactly the configured ceiling of 60 polls — the attempt counter carried by
the timeout outcome equals 60 — at the configured 5000 ms interval, never
resolves before that bound (the unique outcome of the run is the timeout,
not a selection), and then fails with the Timeout error. -/
theorem pollingTimesOutAtBound (poll : Nat → PollResult)
    (h : ∀ n, n < maxAttempts → skipsAt poll n) :
    maxAttempts = 60 ∧ pollInterval = 5000 ∧
      waitForComponentSelection poll = .timeout 60 := by
  refine ⟨rfl, rfl, ?_⟩
  have hadv : waitFrom poll (0 + 60) 0 = waitFrom poll 0 (0 + 60) := by
    apply waitFrom_advance
    intro n hn
    simpa using h n (by simpa [maxAttempts] using hn)
  calc waitForComponentSelection poll
      = waitFrom poll (0 + 60) 0 := rfl
    _ = waitFrom poll 0 (0 + 60) := hadv
    _ = .timeout 60 := rfl

/-- C4 witness: a service that forever answers pending makes the waiter time
out after exactly 60 polls. -/
theorem pollingTimesOutAtBound_witness :
    waitForComponentSelection (fun _ => .ok pendingStatus) = .timeout 60 :=
  (pollingTimesOutAtBound (fun _ => .ok pendingStatus)
    (fun _ _ => ⟨pendingStatus, rfl, rfl⟩)).2.2

/-- C5 counterexample: two consecutive transient transport errors on polls 6
and 7, followed by a successful terminal selection on poll 8, do NOT resolve
normally: the first error falls past the grace bound (`attempt > 5`), so the
waiter escalates immediately on poll 6 with the poll failure instead of
reaching the later success. -/
theorem lateTransientErrorsEscalateCex :
    waitForComponentSelection pollErrorsPastGrace
      = .pollFailure "ECONNRESET" 6 := by decide

/-- C5 amended: transient poll errors are tolerated only inside the grace
window of the first six attempts (loop indices 0–5): whenever 2 consecutive
polls fail with transport errors at attempt indices i and i+1 with
i + 1 ≤ 5 and the next poll succeeds with a terminal selection, the waiter
resolves normally on poll i+2 with no premature failure; an error at any
attempt index greater than 5 escalates on its first occurrence instead. -/
theorem transientErrorsInGraceTolerated (poll : Nat → PollResult)
    (i : Nat) (e1 e2 : String) (s : SessionStatus) (r : SelectionResult)
    (hi : i + 1 ≤ graceLimit)
    (hpre : ∀ n, n < i → skipsAt poll n)
    (he1 : poll i = .err e1) (he2 : poll (i + 1) = .err e2)
    (hs : poll (i + 2) = .ok s) (hr : selectionOf s = some r) :
    waitForComponentSelection poll = .selected r (i + 2) := by
  have hi5 : i + 1 ≤ 5 := hi
  obtain ⟨k, hk⟩ : ∃ k, maxAttempts = ((k + 2) + 1) + i := by
    refine ⟨57 - i, ?_⟩
    show 60 = _
    omega
  have hadv : waitFrom poll (((k + 2) + 1) + i) 0 = waitFrom poll ((k + 2) + 1) (0 + i) := by
    apply waitFrom_advance
    intro n hn
    simpa using hpre n hn
  have h0i : 0 + i = i := Nat.zero_add i
  have hgr : graceLimit = 5 := rfl
  have hstep1 : waitFrom poll ((k + 2) + 1) i = waitFrom poll (k + 2) (i + 1) :=
    waitFrom_err_tolerated poll (k + 2) i e1 he1 (by omega)
  have hstep2 : waitFrom poll ((k + 1) + 1) (i + 1) = waitFrom poll (k + 1) (i + 2) :=
    waitFrom_err_tolerated poll (k + 1) (i + 1) e2 he2 (by omega)
  have hend : waitFrom poll (k + 1) (i + 2) = .selected r (i + 2) :=
    waitFrom_hit poll k (i + 2) s r hs hr
  calc waitForComponentSelection poll
      = waitFrom poll (((k + 2) + 1) + i) 0 := by rw [waitForComponentSelection, ← hk]
    _ = waitFrom poll ((k + 2) + 1) i := by rw [hadv, h0i]
    _ = waitFrom poll (k + 2) (i + 1) := hstep1
    _ = waitFrom poll (k + 1) (i + 2) := hstep2
    _ = .selected r (i + 2) := hend

/-- C5 amended witness: errors on polls 1 and 2 (inside the grace window)
followed by a completed selection on poll 3 resolve normally on poll 3. -/
theorem transientErrorsInGraceTolerated_witness :
    waitForComponentSelection pollErrorsInGrace = .selected ⟨"<Button/>", 2⟩ 3 :=
  transientErrorsInGraceTolerated pollErrorsInGrace 1 "ECONNRESET" "ECONNRESET"
    completedStatus ⟨"<Button/>", 2⟩ (by decide)
    (fun n hn => by interval_cases n; exact ⟨pendingStatus, rfl, rfl⟩)
    rfl rfl rfl (by decide)

/-- C10: on any poll whose payload has status completed and a
selectedVariationId but whose referenced variation is absent from the
variations list or carries empty code, the selection test yields nothing, so
the polling waiter neither resolves nor fails on that poll and instead
continues with the next attempt; moreover every successful resolution of the
polling waiter carries non-empty code (the only failure outcomes being the
escalated poll error and the timeout, by the shape of `WaitOutcome`). -/
theorem completedWithoutUsableVariationContinues :
    (∀ (s : SessionStatus) (selId : String),
        s.session.status = "completed" →
        s.session.selectedVariationId = some selId →
        (s.variations.find? (fun v => v.id == selId) = none ∨
          ∃ v, s.variations.find? (fun v => v.id == selId) = some v ∧ v.code = "") →
        selectionOf s = none)
    ∧ (∀ (poll : Nat → PollResult) (fuel attempt : Nat) (s : SessionStatus),
        poll attempt = .ok s → selectionOf s = none →
        waitFrom poll (fuel + 1) attempt = waitFrom poll fuel (attempt + 1))
    ∧ (∀ (poll : Nat → PollResult) (r : SelectionResult) (k : Nat),
        waitForComponentSelection poll = .selected r k → r.code ≠ "") := by
  refine ⟨?_, ?_, ?_⟩
  · intro s selId hc hsel hbad
    by_cases hid : selId = ""
    · simp [selectionOf, hc, hsel, hid]
    · rcases hbad with hnone | ⟨v, hv, hcode⟩
      · simp [selectionOf, hc, hsel, hid, hnone]
      · simp [selectionOf, hc, hsel, hid, hv, hcode]
  · intro poll fuel attempt s hp hn
    exact waitFrom_skip poll fuel attempt s hp hn
  · intro poll r k h
    exact waitFrom_selected_code poll maxAttempts h

/-- C10 witness: a completed session whose selected id references no listed
variation does not pass the selection test. -/
theorem completedWithoutUsableVariationContinues_witness :
    selectionOf ⟨⟨"completed", some "var-9"⟩, []⟩ = none :=
  completedWithoutUsableVariationContinues.1 ⟨⟨"completed", some "var-9"⟩, []⟩
    "var-9" rfl rfl (Or.inl rfl)

/-- C2: the push-strategy waiter settles at most once per session: a step
taken in a settled state has no effect whatsoever (same state, no resolve,
reject, or unsubscribe action), over any sequence of delivered events at most
one settling action (resolve or reject) is ever emitted, and the channel is
unsubscribed on the success path (`component_selected` event) as well as on
the timeout path (timer firing). -/
theorem pushWaiterSettlesAtMostOnce :
    (∀ (st : PushState) (e : PushEvent), st.settled = true →
        waitForSupabaseSelectionStep st e = (st, []))
    ∧ (∀ evs : List PushEvent,
        ((pushRun ⟨false⟩ evs).2.filter settlesPromise).length ≤ 1)
    ∧ (∀ p : String, waitForSupabaseSelectionStep ⟨false⟩ (.componentSelected p)
        = (⟨true⟩, [.resolve p, .unsubscribe]))
    ∧ (waitForSupabaseSelectionStep ⟨false⟩ .timerFired
        = (⟨true⟩, [.unsubscribe, .reject])) := by
  refine ⟨?_, ?_, ?_, ?_⟩
  · intro st e h
    cases e <;> simp [waitForSupabaseSelectionStep, h]
  · intro evs
    cases evs with
    | nil => simp [pushRun]
    | cons e rest =>
      cases e <;>
        simp [pushRun, waitForSupabaseSelectionStep, pushRun_settled rest,
          settlesPromise]
  · intro p; rfl
  · rfl

/-- C2 witness: a duplicate timer firing after the waiter has settled
produces no second effect. -/
theorem pushWaiterSettlesAtMostOnce_witness :
    waitForSupabaseSelectionStep ⟨true⟩ .timerFired = (⟨true⟩, []) :=
  pushWaiterSettlesAtMostOnce.1 ⟨true⟩ .timerFired rfl

/-- C6 counterexample: the generate-component handler of `src/index.ts`
forwards the caller-supplied framework string with no runtime validation, so
the out-of-enumeration value svelte is forwarded verbatim to the remote
generation endpoint, refuting that the Dispatcher never forwards an
out-of-enumeration framework value. -/
theorem unvalidatedFrameworkForwardedCex :
    indexForwardedFramework svelteArgs = "svelte"
      ∧ "svelte" ∉ frameworkValues := by
  exact ⟨rfl, by decide⟩

/-- C6 amended: the schema-based Dispatcher of `src/server.ts` validates
framework against react, vue, angular and styling against tailwind, css,
styled-components: every successfully parsed request forwards only
in-enumeration wire strings, and any out-of-enumeration framework or styling
value makes `GenerateComponentSchema.parse` throw a typed validation error;
the `src/index.ts` variant, by contrast, performs no runtime enumeration
check and forwards the caller-supplied strings verbatim. -/
theorem schemaDispatcherValidatesEnums :
    (∀ (args : RawArgs) (req : ParsedRequest),
        GenerateComponentSchemaParse args = .ok req →
        frameworkToString req.framework ∈ frameworkValues ∧
          stylingToString req.styling ∈ stylingValues)
    ∧ (∀ (args : RawArgs) (f : String), args.framework = some f →
        f ∉ frameworkValues → ∃ e, GenerateComponentSchemaParse args = .error e)
    ∧ (∀ (args : RawArgs) (st : String), args.styling = some st →
        st ∉ stylingValues → ∃ e, GenerateComponentSchemaParse args = .error e) := by
  refine ⟨?_, ?_, ?_⟩
  · intro args req _
    exact ⟨by cases req.framework <;> decide, by cases req.styling <;> decide⟩
  · intro args f hf hmem
    simp only [frameworkValues, List.mem_cons, List.not_mem_nil, or_false] at hmem
    push_neg at hmem
    obtain ⟨h1, h2, h3⟩ := hmem
    cases hd : args.description with
    | none => exact ⟨"Required: description", by simp [GenerateComponentSchemaParse, hd]⟩
    | some d =>
      refine ⟨"Invalid enum value for framework: " ++ f, ?_⟩
      simp [GenerateComponentSchemaParse, hd, hf, parseFramework, h1, h2, h3]
  · intro args st hst hmem
    simp only [stylingValues, List.mem_cons, List.not_mem_nil, or_false] at hmem
    push_neg at hmem
    obtain ⟨h1, h2, h3⟩ := hmem
    cases hd : args.description with
    | none => exact ⟨"Required: description", by simp [GenerateComponentSchemaParse, hd]⟩
    | some d =>
      cases hf : parseFramework args.framework with
      | error e => exact ⟨e, by simp [GenerateComponentSchemaParse, hd, hf]⟩
      | ok f =>
        refine ⟨"Invalid enum value for styling: " ++ st, ?_⟩
        simp [GenerateComponentSchemaParse, hd, hf, parseStyling, hst, h1, h2, h3]

/-- C6 amended witness: the schema rejects the svelte framework value with a
validation error. -/
theorem schemaDispatcherValidatesEnums_witness :
    ∃ e, GenerateComponentSchemaParse svelteArgs = .error e :=
  schemaDispatcherValidatesEnums.2.1 svelteArgs "svelte" rfl (by decide)

/-- C7: an absent service credential makes the `src/index.ts` startup code
terminate the process with exit code 1 before any server object is
constructed, and a credential the service rejects at call time makes the
tool-call handler of `src/server.ts` fail with an AuthenticationError
carrying the validation error message. -/
theorem credentialFailureModes :
    (adorableStartup none = .exit 1)
    ∧ (∀ (key : String) (validateApiKey : String → ApiKeyValidationResult),
        key ≠ "" → (validateApiKey key).valid = false →
        authenticateToolCall (some key) validateApiKey
          = .error (.authenticationError
              ((validateApiKey key).error.getD "Invalid API key"))) := by
  refine ⟨rfl, ?_⟩
  intro key v hk hv
  simp [authenticateToolCall, extractApiKey, hk, hv]

/-- C7 witness: a concrete key the service rejects yields the authentication
failure. -/
theorem credentialFailureModes_witness :
    authenticateToolCall (some "sk-123") rejectAllKeys
      = .error (.authenticationError "Invalid API key") :=
  credentialFailureModes.2 "sk-123" rejectAllKeys (by decide) rfl

set_option maxRecDepth 40000 in
/-- C8 counterexample: in the `src/index.ts` variant the caller does NOT
receive the gallery URL in the response payload: on the timeout (failure)
path the payload is exactly the fixed 5-minute timeout error text, which does
not contain the gallery URL, and the payload is byte-for-byte identical under
two different gallery URLs — so the URL cannot serve as a fallback affordance
in the response of that variant, refuting the claim as stated over every
request. -/
theorem galleryUrlAbsentFromIndexResponseCex :
    (handleGenerateComponentIndex "http://localhost:3000/gallery/abc" "react"
        "tailwind" .launched (.timeout 60)).1
      = "❌ Error: Timeout: No component was selected within 5 minutes. Please try again."
    ∧ ¬ List.IsInfix "http://localhost:3000/gallery/abc".data
        ("❌ Error: Timeout: No component was selected within 5 minutes. Please try again.").data
    ∧ (handleGenerateComponentIndex "http://localhost:3000/gallery/abc" "react"
        "tailwind" .launched (.timeout 60)).1
      = (handleGenerateComponentIndex "http://example.org/gallery/xyz" "react"
        "tailwind" .launched (.timeout 60)).1 :=
  ⟨rfl, by decide, rfl⟩

/-- C8 amended: a failure to launch the browser is logged and non-fatal in
both variants — the returned content is identical to the one produced when
the launch succeeds, whatever the wait produces, with the failure recorded in
the logs — but only the `src/server.ts` handler gives the caller the gallery
URL in the response payload (as the galleryUrl field of the success payload
and verbatim inside the no-selection fallback text); in the `src/index.ts`
variant the response payload is independent of the gallery URL on every path
(the URL reaches the user only through console logging and the browser
launch), so the fallback affordance exists there only outside the response. -/
theorem browserLaunchNonFatalGalleryUrlByVariant
    (baseUrl sessionId m framework styling : String)
    (wait : SelectionWait) (outcome : WaitOutcome) :
    ((handleGenerateComponentServer baseUrl sessionId (.failed m) wait).1
      = (handleGenerateComponentServer baseUrl sessionId .launched wait).1)
    ∧ contentMentionsGalleryUrl
        (handleGenerateComponentServer baseUrl sessionId (.failed m) wait).1
        (baseUrl ++ "/gallery/" ++ sessionId)
    ∧ contentMentionsGalleryUrl
        (handleGenerateComponentServer baseUrl sessionId .launched wait).1
        (baseUrl ++ "/gallery/" ++ sessionId)
    ∧ (handleGenerateComponentServer baseUrl sessionId (.failed m) wait).2
        = ["Failed to open browser automatically: " ++ m]
    ∧ (∀ galleryUrl,
        (handleGenerateComponentIndex galleryUrl framework styling (.failed m) outcome).1
          = (handleGenerateComponentIndex galleryUrl framework styling .launched outcome).1)
    ∧ (∀ galleryUrl,
        (handleGenerateComponentIndex galleryUrl framework styling (.failed m) outcome).2
          = ["Failed to open gallery URL automatically: " ++ m,
             "Please manually open: " ++ galleryUrl])
    ∧ (∀ g1 g2 launch,
        (handleGenerateComponentIndex g1 framework styling launch outcome).1
          = (handleGenerateComponentIndex g2 framework styling launch outcome).1) := by
  refine ⟨?_, ?_, ?_, ?_, ?_, ?_, ?_⟩
  · cases wait <;> rfl
  · cases wait with
    | selected payload => exact rfl
    | waitError msg =>
      refine ⟨"Component generation started but no selection was received: "
        ++ msg ++ ". You can open the gallery at ", "", ?_⟩
      rw [String.append_empty]
  · cases wait with
    | selected payload => exact rfl
    | waitError msg =>
      refine ⟨"Component generation started but no selection was received: "
        ++ msg ++ ". You can open the gallery at ", "", ?_⟩
      rw [String.append_empty]
  · cases wait <;> rfl
  · intro galleryUrl; cases outcome <;> rfl
  · intro galleryUrl; cases outcome <;> rfl
  · intro g1 g2 launch; cases launch <;> cases outcome <;> rfl

/-- C9: the result formatter of `src/index.ts` is total over the
variationIndex of a SelectionResult (it is a Lean function, so it never
throws): for every integer variationIndex it produces a response text
containing the selected code verbatim, the style name is the fixed name at
that index when the index lies in [0, 5) (hence one of the five fixed
names), and outside that range both variants generate the fallback names
Variation (n+1) and Design Variation (n+1). -/
theorem resultFormatterTotal (framework styling code : String) (i : Int) :
    (∃ pre suf, formatResult framework styling ⟨code, i⟩ = pre ++ code ++ suf)
    ∧ (0 ≤ i ∧ i < 5 →
        styleNameFor i = styleNames.getD i.toNat "" ∧
        styleNameFor i ∈ styleNames ∧
        styleNameBeautifulFor i = styleNamesBeautiful.getD i.toNat "")
    ∧ (¬(0 ≤ i ∧ i < 5) →
        styleNameFor i = "Variation " ++ toString (i + 1) ∧
        styleNameBeautifulFor i = "Design Variation " ++ toString (i + 1)) := by
  refine ⟨?_, ?_, ?_⟩
  · unfold formatResult
    exact ⟨_, _, rfl⟩
  · intro h
    obtain ⟨h0, h5⟩ := h
    interval_cases i <;> exact ⟨rfl, by decide, rfl⟩
  · intro h
    exact ⟨by simp [styleNameFor, h], by simp [styleNameBeautifulFor, h]⟩

/-- C9 witness: an out-of-range index 7 yields the generated fallback name. -/
theorem resultFormatterTotal_witness :
    styleNameFor 7 = "Variation 8" :=
  ((resultFormatterTotal "react" "tailwind" "X" 7).2.2 (by decide)).1

end ChoicesMCP
